import Mathlib

/-!
Verification of the terminal session connection manager of `tmuxdeck`
(`frontend/src/components/Terminal.tsx`).

The component is single-threaded and event-driven: every handler is a
pure function of the component's mutable refs plus the event's data, and
its effects are socket sends, terminal writes and timer operations.  We
embed each handler as a Lean function `TState → args → TState × List Output`.
JavaScript numbers are modelled by `ℚ` (every value the code manipulates
here is exactly representable), millisecond clocks by `ℕ`, and the wire
protocol by an inductive `Frame` type whose `wire` function produces the
literal strings the code sends.
-/

namespace TmuxDeck

/-- `WebSocket.readyState` values. -/
inductive ReadyState
  | CONNECTING
  | OPEN
  | CLOSING
  | CLOSED
deriving DecidableEq, Repr

/-- A (cols, rows) dimension pair as proposed by the fit addon. -/
structure Dims where
  cols : Nat
  rows : Nat
deriving DecidableEq, Repr

/-- Outbound frames of the control protocol (§ "Control Protocol Codec").
`raw` is verbatim session input (typed text, pasted text, upload paths). -/
inductive Frame
  | resize (d : Dims)
  | selectWindow (i : Nat)
  | scrollUp (n : Nat)
  | scrollDown (n : Nat)
  | scrollExit
  | shiftEnter
  | disableMouse
  | fixBell
  | raw (data : String)
  | rawBytes (bytes : List Nat)
deriving DecidableEq, Repr

/-- The literal bytes put on the socket for each frame, exactly as the
template literals in the source produce them. -/
def Frame.wire : Frame → String
  | .resize d => "RESIZE:" ++ toString d.cols ++ ":" ++ toString d.rows
  | .selectWindow i => "SELECT_WINDOW:" ++ toString i
  | .scrollUp n => "SCROLL:up:" ++ toString n
  | .scrollDown n => "SCROLL:down:" ++ toString n
  | .scrollExit => "SCROLL:exit"
  | .shiftEnter => "SHIFT_ENTER:"
  | .disableMouse => "DISABLE_MOUSE:"
  | .fixBell => "FIX_BELL:"
  | .raw data => data
  | .rawBytes _ => ""

/-- Which source-code site performed a `ws.send` (used to state per-site
properties; every site corresponds to one `ws.send(...)` occurrence in
`Terminal.tsx`). -/
inductive SendSite
  | dataPath          -- term.onData forwarding handler
  | binaryPath        -- term.onBinary forwarding handler
  | onResizeListener  -- term.onResize handler
  | scrollExitSite    -- the scroll-mode exit onData handler
  | keyHandler        -- attachCustomKeyEventHandler
  | pasteSite         -- async clipboard paste shortcut
  | openAnnSite       -- deferred RESIZE inside ws.onopen
  | viaSendResize     -- the sendResize callback
  | selectWindowSite  -- the SELECT_WINDOW effect
  | wheelSite         -- handleWheel
  | touchSite         -- handleTouchMove
  | momentumSite      -- the momentum decay loop
  | uploadSite        -- uploadAndInject
  | toWsSite          -- sendToWs (virtual keys / text input bridge)
  | bannerSite        -- handleDisableMouse / handleFixBell
deriving DecidableEq, Repr

/-- One performed `ws.send`: the site that executed it, whether it was a
`sendResize(force = true)` transmission, and the frame. -/
structure SendRec where
  site : SendSite
  forced : Bool
  frame : Frame
deriving DecidableEq, Repr

/-- Observable effects of a handler invocation. -/
inductive Output
  | send (r : SendRec)      -- ws.send
  | write (text : String)   -- term.write / term.writeln
  | clearDisplay            -- term.clear
  | connectStart            -- a new WebSocket transport is opened
  | closeSock               -- currentClose() — close an in-flight socket
  | timerSet (delay : ℚ)    -- setTimeout for the reconnect timer
  | timerCancel             -- clearTimeout of the reconnect timer
deriving DecidableEq, Repr

/-- The component's mutable refs and closure variables, as one record:
`wsRef.current` (with its `readyState` if non-null), `lastSentDimsRef`,
`windowIndexRef`, `inScrollMode`, and the closure state of
`setupWebSocketTerminal` (`reconnectAttempt`, `reconnectTimer`, `disposed`,
`hasConnectedOnce`, `tapToReconnectActive`, `currentClose`, `hiddenAt`)
plus the wheel throttle clock.  `hiddenAt = 0` is the "never hidden"
sentinel, exactly as in the source. -/
structure TState where
  wsState : Option ReadyState
  lastSentDims : Option Dims
  windowIndexRef : Nat
  inScrollMode : Bool
  reconnectAttempt : Nat
  reconnectTimer : Option ℚ
  disposed : Bool
  hasConnectedOnce : Bool
  tapToReconnectActive : Bool
  currentClose : Bool
  hiddenAt : Nat
  lastWheelTime : Nat
deriving DecidableEq, Repr

/-! Reconnection constants (`Terminal.tsx` lines 27–30). -/

def RECONNECT_INITIAL_DELAY_MS : ℚ := 500
def RECONNECT_MAX_DELAY_MS : ℚ := 10000
def RECONNECT_BACKOFF_FACTOR : ℚ := 3 / 2
def RECONNECT_MAX_ATTEMPTS : Nat := 15

/-- The backoff delay computed by `scheduleReconnect`:
`Math.min(RECONNECT_INITIAL_DELAY_MS * Math.pow(RECONNECT_BACKOFF_FACTOR,
reconnectAttempt), RECONNECT_MAX_DELAY_MS)`.  All values involved are
exactly representable IEEE doubles for `attempt < RECONNECT_MAX_ATTEMPTS`,
so the rational model coincides with the float computation. -/
def reconnectDelay (attempt : Nat) : ℚ :=
  min (RECONNECT_INITIAL_DELAY_MS * RECONNECT_BACKOFF_FACTOR ^ attempt)
    RECONNECT_MAX_DELAY_MS

/-- C2: the reconnect delay after the `a`-th consecutive failure is
`min(initialDelay · backoffFactor ^ a, maxDelay)`; the sequence is
non-decreasing, and attempts 0, 1, 2 yield 500 ms, 750 ms, 1125 ms. -/
theorem C2_reconnect_delay :
    reconnectDelay 0 = 500 ∧ reconnectDelay 1 = 750 ∧ reconnectDelay 2 = 1125 ∧
    ∀ a : Nat, reconnectDelay a ≤ reconnectDelay (a + 1) := by
  refine ⟨?_, ?_, ?_, fun a => ?_⟩
  · norm_num [reconnectDelay, RECONNECT_INITIAL_DELAY_MS,
      RECONNECT_BACKOFF_FACTOR, RECONNECT_MAX_DELAY_MS]
  · norm_num [reconnectDelay, RECONNECT_INITIAL_DELAY_MS,
      RECONNECT_BACKOFF_FACTOR, RECONNECT_MAX_DELAY_MS]
  · norm_num [reconnectDelay, RECONNECT_INITIAL_DELAY_MS,
      RECONNECT_BACKOFF_FACTOR, RECONNECT_MAX_DELAY_MS]
  · apply min_le_min _ le_rfl
    apply mul_le_mul_of_nonneg_left _ (by norm_num [RECONNECT_INITIAL_DELAY_MS])
    exact pow_le_pow_right₀ (by norm_num [RECONNECT_BACKOFF_FACTOR]) (Nat.le_succ a)

/-! ## Connection Lifecycle Manager (`setupWebSocketTerminal`) -/

/-- `doConnect` (lines 332–365): close any in-progress connection attempt,
null out `wsRef.current`, and open a new transport (whose `close` handle
becomes the new `currentClose`). -/
def doConnect (s : TState) : TState × List Output :=
  if s.disposed then (s, [])
  else
    let closeOut : List Output := if s.currentClose then [Output.closeSock] else []
    ({ s with wsState := none, currentClose := true },
      closeOut ++ [Output.connectStart])

/-- `scheduleReconnect` (lines 313–330): no-op when disposed or a timer is
already pending; at `RECONNECT_MAX_ATTEMPTS` it writes the tap-to-reconnect
banner and schedules nothing; otherwise it schedules a timer with the
backoff delay and increments the attempt counter. -/
def scheduleReconnect (s : TState) : TState × List Output :=
  if s.disposed ∨ s.reconnectTimer.isSome then (s, [])
  else if RECONNECT_MAX_ATTEMPTS ≤ s.reconnectAttempt then
    ({ s with tapToReconnectActive := true },
      [Output.write "\r\n\x1b[1;31m[Connection lost — tap to reconnect]\x1b[0m"])
  else
    ({ s with reconnectAttempt := s.reconnectAttempt + 1,
              reconnectTimer := some (reconnectDelay s.reconnectAttempt) },
      [Output.write "\r\n\x1b[1;33m[Reconnecting...]\x1b[0m",
       Output.timerSet (reconnectDelay s.reconnectAttempt)])

/-- The reconnect timer firing (the `setTimeout` body, lines 326–329). -/
def timerFired (s : TState) : TState × List Output :=
  match s.reconnectTimer with
  | none => (s, [])
  | some _ =>
    let s1 := { s with reconnectTimer := none }
    if s1.disposed then (s1, []) else doConnect s1

/-- The `onConnected` callback passed to `connectWebSocket`
(lines 347–357): on a non-first connection the display is cleared and a
reconnection banner written; the attempt counter and tap state reset. -/
def onConnected (s : TState) : TState × List Output :=
  if s.disposed then (s, [Output.closeSock])
  else
    let msgs : List Output :=
      if s.hasConnectedOnce then
        [Output.clearDisplay, Output.write "\x1b[1;32m[Reconnected]\x1b[0m"]
      else []
    ({ s with wsState := some ReadyState.OPEN, hasConnectedOnce := true,
              reconnectAttempt := 0, tapToReconnectActive := false }, msgs)

/-- The `onDisconnected` callback (lines 358–362): null the socket ref and
schedule a reconnect. -/
def onDisconnected (s : TState) : TState × List Output :=
  if s.disposed then (s, [])
  else scheduleReconnect { s with wsState := none }

/-- `handleTapReconnect` (lines 369–375): the explicit user action leaving
the tap-to-reconnect state; resets the attempt count to 0 and connects. -/
def handleTapReconnect (s : TState) : TState × List Output :=
  if s.tapToReconnectActive ∧ ¬s.disposed then
    doConnect { s with tapToReconnectActive := false, reconnectAttempt := 0 }
  else (s, [])

/-- Document visibility states relevant to `handleVisibilityChange`. -/
inductive Visibility
  | visible
  | hidden
deriving DecidableEq, Repr

/-- `handleVisibilityChange` (lines 382–399).  `now` is `Date.now()`.
Going hidden records the timestamp; becoming visible with a socket that is
missing / CLOSED / CLOSING, or after more than 2000 ms hidden, cancels any
pending reconnect timer, resets the attempt count and tap state, and calls
`doConnect` immediately.  (`wsRef.current` only ever holds a socket that
was once OPEN, so the CONNECTING case cannot arise for it.) -/
def handleVisibilityChange (s : TState) (vis : Visibility) (now : Nat) :
    TState × List Output :=
  match vis with
  | .hidden => ({ s with hiddenAt := now }, [])
  | .visible =>
    if s.disposed then (s, [])
    else
      let wasHiddenLong : Bool := decide (0 < s.hiddenAt ∧ 2000 < now - s.hiddenAt)
      if s.wsState = none ∨ s.wsState = some ReadyState.CLOSED ∨
          s.wsState = some ReadyState.CLOSING ∨ wasHiddenLong = true then
        let cancel : List Output :=
          if s.reconnectTimer.isSome then [Output.timerCancel] else []
        let s1 := { s with reconnectTimer := none, reconnectAttempt := 0,
                           tapToReconnectActive := false }
        let (s2, out) := doConnect s1
        (s2, cancel ++ out)
      else (s, [])

/-! ## RESIZE transmission paths

Three distinct sites transmit `RESIZE` frames:
the deferred announcement inside `ws.onopen`, the `term.onResize` listener,
and the deduplicating `sendResize` callback.  Only `sendResize` consults or
updates `lastSentDimsRef`. -/

/-- `sendResize` (lines 479–493).  `propose` is the result of
`fitAddon.proposeDimensions()` (the fit addon is always loaded while the
component lives, so only the dimension query is external).  Unless forced,
the send is skipped when the proposal equals the last pair this path sent;
on a send, `lastSentDimsRef` is updated first. -/
def sendResize (s : TState) (force : Bool) (propose : Option Dims) :
    TState × List Output :=
  if s.wsState = some ReadyState.OPEN then
    match propose with
    | some dims =>
      if force = false ∧ s.lastSentDims = some dims then (s, [])
      else
        ({ s with lastSentDims := some dims },
          [Output.send ⟨SendSite.viaSendResize, force, Frame.resize dims⟩])
    | none => (s, [])
  else (s, [])

/-- The `term.onResize` listener (lines 230–235): forwards every resize
event unconditionally (no dedup, no `lastSentDimsRef` access). -/
def resizeListener (s : TState) (cols rows : Nat) : TState × List Output :=
  if s.wsState = some ReadyState.OPEN then
    (s, [Output.send ⟨SendSite.onResizeListener, false, Frame.resize ⟨cols, rows⟩⟩])
  else (s, [])

/-- The double-`requestAnimationFrame` body inside `ws.onopen`
(lines 132–142).  It checks the readyState of the *captured* socket (passed
here as `captured`) and sends the proposed dimensions without touching
`lastSentDimsRef`. -/
def openAnnounce (s : TState) (captured : ReadyState) (propose : Option Dims) :
    TState × List Output :=
  if captured = ReadyState.OPEN then
    match propose with
    | some dims =>
      (s, [Output.send ⟨SendSite.openAnnSite, false, Frame.resize dims⟩])
    | none => (s, [])
  else (s, [])

/-- The `SELECT_WINDOW` effect (lines 814–825): on a `windowIndex` change
with an open socket, send `SELECT_WINDOW:<index>` and then a forced
resize; the socket itself is not touched. -/
def windowSwitchEffect (s : TState) (newIndex : Nat) (propose : Option Dims) :
    TState × List Output :=
  let prev := s.windowIndexRef
  let s1 := { s with windowIndexRef := newIndex }
  if prev ≠ newIndex then
    if s1.wsState = some ReadyState.OPEN then
      let (s2, out2) := sendResize s1 true propose
      (s2, Output.send ⟨SendSite.selectWindowSite, false, Frame.selectWindow newIndex⟩ :: out2)
    else (s1, [])
  else (s1, [])

/-- The externally triggered events that can transmit a `RESIZE` frame.
`sendResizeCall` covers every caller of `sendResize` other than the window
switch (initial mount with `force = true`, `refit`, the toolbar-toggle and
visibility effects with `force = false`). -/
inductive REvent
  | openAnn (captured : ReadyState) (propose : Option Dims)
  | termResize (cols rows : Nat)
  | sendResizeCall (force : Bool) (propose : Option Dims)
  | windowSwitch (newIndex : Nat) (propose : Option Dims)
deriving DecidableEq, Repr

/-- One event step of the resize subsystem. -/
def rstep (s : TState) (e : REvent) : TState × List Output :=
  match e with
  | .openAnn rs p => openAnnounce s rs p
  | .termResize c r => resizeListener s c r
  | .sendResizeCall f p => sendResize s f p
  | .windowSwitch i p => windowSwitchEffect s i p

/-- Run a sequence of resize-subsystem events, accumulating all outputs. -/
def runR (s : TState) : List REvent → TState × List Output
  | [] => (s, [])
  | e :: es =>
    let (s1, out1) := rstep s e
    let (s2, out2) := runR s1 es
    (s2, out1 ++ out2)

/-- Project the transmitted `RESIZE` frames (any site) from an output log,
as (dims, forced) pairs in transmission order. -/
def allResizeLog (out : List Output) : List (Dims × Bool) :=
  out.filterMap fun o =>
    match o with
    | .send r =>
      match r.frame with
      | .resize d => some (d, r.forced)
      | _ => none
    | _ => none

/-- Project only the `RESIZE` frames transmitted by `sendResize`. -/
def sendResizeLog (out : List Output) : List (Dims × Bool) :=
  out.filterMap fun o =>
    match o with
    | .send r =>
      match r.site, r.frame with
      | .viaSendResize, .resize d => some (d, r.forced)
      | _, _ => none
    | _ => none

/-- No two consecutive transmissions carry the same pair unless the second
is forced (the claimed dedup property, over a transmission log). -/
def noDupUnforced : List (Dims × Bool) → Bool
  | [] => true
  | [_] => true
  | a :: b :: t => (b.2 || decide (a.1 ≠ b.1)) && noDupUnforced (b :: t)

/-- `noDupUnforced`, strengthened with a virtual previous pair `last`
(the value of `lastSentDimsRef` before the log). -/
def dedupFrom : Option Dims → List (Dims × Bool) → Bool
  | _, [] => true
  | last, (d, f) :: t => (f || decide (some d ≠ last)) && dedupFrom (some d) t

/-- The value of the virtual previous pair after a log. -/
def lastDimsAfter : Option Dims → List (Dims × Bool) → Option Dims
  | l, [] => l
  | _, (d, _) :: t => lastDimsAfter (some d) t

theorem dedupFrom_append (xs : List (Dims × Bool)) :
    ∀ (l : Option Dims) (ys : List (Dims × Bool)),
      dedupFrom l (xs ++ ys)
        = (dedupFrom l xs && dedupFrom (lastDimsAfter l xs) ys) := by
  induction xs with
  | nil => intro l ys; simp [dedupFrom, lastDimsAfter]
  | cons a t ih =>
    intro l ys
    obtain ⟨d, f⟩ := a
    simp [dedupFrom, lastDimsAfter, ih, Bool.and_assoc]

/-- Every step of the resize subsystem either transmits nothing through
`sendResize` and leaves `lastSentDimsRef` alone, or transmits one pair that
becomes the new `lastSentDimsRef` and, when unforced, differs from the old
one. -/
theorem rstep_sendResize_spec (s : TState) (e : REvent) :
    (sendResizeLog (rstep s e).2 = [] ∧ (rstep s e).1.lastSentDims = s.lastSentDims) ∨
    (∃ d f, sendResizeLog (rstep s e).2 = [(d, f)] ∧
      (rstep s e).1.lastSentDims = some d ∧
      (f = false → s.lastSentDims ≠ some d)) := by
  cases e with
  | openAnn rs p =>
    left
    cases p with
    | none => simp [rstep, openAnnounce, sendResizeLog]
    | some d =>
      simp [rstep, openAnnounce, sendResizeLog]
      split <;> simp
  | termResize c r =>
    left
    simp [rstep, resizeListener, sendResizeLog]
    split <;> simp
  | sendResizeCall f p =>
    cases p with
    | none => left; simp [rstep, sendResize, sendResizeLog]
    | some d =>
      by_cases hopen : s.wsState = some ReadyState.OPEN
      · by_cases hskip : f = false ∧ s.lastSentDims = some d
        · left; simp [rstep, sendResize, sendResizeLog, hopen, hskip]
        · right
          refine ⟨d, f, ?_, ?_, fun hf hlast => hskip ⟨hf, hlast⟩⟩ <;>
            simp [rstep, sendResize, sendResizeLog, hopen, hskip]
      · left; simp [rstep, sendResize, sendResizeLog, hopen]
  | windowSwitch i p =>
    by_cases hsw : s.windowIndexRef ≠ i
    · by_cases hopen : s.wsState = some ReadyState.OPEN
      · cases p with
        | none =>
          left
          simp [rstep, windowSwitchEffect, sendResize, sendResizeLog, hsw, hopen]
        | some d =>
          right
          refine ⟨d, true, ?_, ?_, ?_⟩ <;>
            simp [rstep, windowSwitchEffect, sendResize, sendResizeLog, hsw, hopen]
      · left
        simp [rstep, windowSwitchEffect, sendResizeLog, hsw, hopen]
    · left
      simp [rstep, windowSwitchEffect, sendResizeLog, hsw]

/-- The `sendResize` transmissions of any event trace are deduplicated
relative to the running `lastSentDimsRef` value. -/
theorem runR_dedup (evs : List REvent) : ∀ s : TState,
    dedupFrom s.lastSentDims (sendResizeLog (runR s evs).2) = true := by
  induction evs with
  | nil => intro s; simp [runR, sendResizeLog, dedupFrom]
  | cons e es ih =>
    intro s
    have hrun : (runR s (e :: es)).2 = (rstep s e).2 ++ (runR (rstep s e).1 es).2 := by
      simp [runR]
    rw [hrun, sendResizeLog, List.filterMap_append]
    rw [show ∀ l, List.filterMap _ l = sendResizeLog l from fun _ => rfl,
        show ∀ l, List.filterMap _ l = sendResizeLog l from fun _ => rfl]
    rcases rstep_sendResize_spec s e with ⟨hlog, hdims⟩ | ⟨d, f, hlog, hdims, hdiff⟩
    · rw [hlog, List.nil_append]
      have := ih (rstep s e).1
      rwa [hdims] at this
    · rw [hlog, dedupFrom_append]
      have h2 := ih (rstep s e).1
      rw [hdims] at h2
      simp [dedupFrom, lastDimsAfter, h2]
      cases f with
      | true => left; rfl
      | false =>
        right
        intro hlast
        exact hdiff rfl hlast.symm

/-- A convenient fully-populated component state for concrete runs. -/
def baseState : TState :=
  { wsState := some ReadyState.OPEN, lastSentDims := none, windowIndexRef := 0,
    inScrollMode := false, reconnectAttempt := 0, reconnectTimer := none,
    disposed := false, hasConnectedOnce := true, tapToReconnectActive := false,
    currentClose := true, hiddenAt := 0, lastWheelTime := 0 }

/-- C1 (counterexample): the claim as stated is false.  From an open
connection with no previously sent pair, an unforced `sendResize` that
transmits (80, 24) followed by a `term.onResize` event with the same
dimensions (the terminal being fitted to the previously proposed size)
puts two consecutive identical unforced `RESIZE:80:24` transmissions on
the wire. -/
theorem C1_counterexample :
    noDupUnforced (allResizeLog (runR baseState
      [REvent.sendResizeCall false (some ⟨80, 24⟩),
       REvent.termResize 80 24]).2) = false := by decide

/-- C1 (amended): `RESIZE` commands transmitted through the deduplicating
`sendResize` path are sent only when the proposed dimensions differ from
the last pair that path sent, or when transmission is forced — so among
`sendResize` transmissions no two consecutive ones carry an identical
unforced pair; but the `term.onResize` listener transmits every resize
event unconditionally, without consulting the last-sent pair. -/
theorem C1_resize_dedup :
    (∀ (s : TState) (evs : List REvent),
      dedupFrom s.lastSentDims (sendResizeLog (runR s evs).2) = true) ∧
    (∀ (s : TState) (cols rows : Nat),
      (resizeListener { s with wsState := some ReadyState.OPEN } cols rows).2
        = [Output.send ⟨SendSite.onResizeListener, false, Frame.resize ⟨cols, rows⟩⟩]) := by
  constructor
  · intro s evs; exact runR_dedup evs s
  · intro s cols rows; simp [resizeListener]

/-! ## Exhaustion and visibility recovery -/

/-- The automatic (non-user) events that drive the reconnect machinery:
a transport close/error (the source treats both identically) and the
reconnect timer firing. -/
inductive AutoEvent
  | closeEvt
  | timerEvt
deriving DecidableEq, Repr

def autoStep (s : TState) (e : AutoEvent) : TState × List Output :=
  match e with
  | .closeEvt => onDisconnected s
  | .timerEvt => timerFired s

def runAuto (s : TState) : List AutoEvent → TState × List Output
  | [] => (s, [])
  | e :: es =>
    let (s1, o1) := autoStep s e
    let (s2, o2) := runAuto s1 es
    (s2, o1 ++ o2)

/-- Did any output schedule a reconnect timer? -/
def hasTimerSet (out : List Output) : Bool :=
  out.any fun o => match o with | Output.timerSet _ => true | _ => false

/-- Did any output open a new transport? -/
def hasConnectStart (out : List Output) : Bool :=
  out.any fun o => match o with | Output.connectStart => true | _ => false

/-- The `Exhausted` (tap-to-reconnect) state: the attempt budget is spent,
no timer is pending, the tap banner is active, and the manager is live. -/
def Exhausted (s : TState) : Prop :=
  RECONNECT_MAX_ATTEMPTS ≤ s.reconnectAttempt ∧ s.reconnectTimer = none ∧
  s.tapToReconnectActive = true ∧ s.disposed = false

instance (s : TState) : Decidable (Exhausted s) := by
  unfold Exhausted; infer_instance

theorem autoStep_exhausted (s : TState) (e : AutoEvent) (h : Exhausted s) :
    Exhausted (autoStep s e).1 ∧ hasTimerSet (autoStep s e).2 = false ∧
      hasConnectStart (autoStep s e).2 = false := by
  obtain ⟨h1, h2, h3, h4⟩ := h
  cases e with
  | closeEvt =>
    simp [autoStep, onDisconnected, scheduleReconnect, h1, h2, h4, Exhausted,
      hasTimerSet, hasConnectStart, Nat.not_lt.mpr h1]
  | timerEvt =>
    simp [autoStep, timerFired, h2, Exhausted, h1, h3, h4, hasTimerSet,
      hasConnectStart]

theorem runAuto_exhausted (evs : List AutoEvent) : ∀ s : TState, Exhausted s →
    Exhausted (runAuto s evs).1 ∧ hasTimerSet (runAuto s evs).2 = false ∧
      hasConnectStart (runAuto s evs).2 = false := by
  induction evs with
  | nil => intro s h; simpa [runAuto, hasTimerSet, hasConnectStart] using h
  | cons e es ih =>
    intro s h
    have hstep := autoStep_exhausted s e h
    have hrest := ih (autoStep s e).1 hstep.1
    refine ⟨?_, ?_, ?_⟩
    · simpa [runAuto] using hrest.1
    · simp [runAuto, hasTimerSet, List.any_append]
      constructor
      · simpa [hasTimerSet] using hstep.2.1
      · simpa [hasTimerSet] using hrest.2.1
    · simp [runAuto, hasConnectStart, List.any_append]
      constructor
      · simpa [hasConnectStart] using hstep.2.2
      · simpa [hasConnectStart] using hrest.2.2

/-- C3: once the attempt count has reached `RECONNECT_MAX_ATTEMPTS`, no
sequence of automatic events (closes, timer firings) ever schedules a
reconnect timer or opens a transport, and the manager stays in the
tap-to-reconnect state; the explicit tap resets the attempt count to 0 and
starts a new connection. -/
theorem C3_exhausted_no_timer (s : TState) (h : Exhausted s) :
    (∀ evs : List AutoEvent,
      Exhausted (runAuto s evs).1 ∧ hasTimerSet (runAuto s evs).2 = false ∧
        hasConnectStart (runAuto s evs).2 = false) ∧
    ((handleTapReconnect s).1.reconnectAttempt = 0 ∧
      (handleTapReconnect s).1.tapToReconnectActive = false ∧
      hasConnectStart (handleTapReconnect s).2 = true) := by
  obtain ⟨h1, h2, h3, h4⟩ := h
  refine ⟨fun evs => runAuto_exhausted evs s ⟨h1, h2, h3, h4⟩, ?_⟩
  simp [handleTapReconnect, doConnect, h3, h4, hasConnectStart]

/-- Witness for C3, at the concrete exhausted state reached after 15
failed attempts, running a stray close and a stray timer event. -/
def exhState : TState :=
  { baseState with wsState := none, reconnectAttempt := 15,
                   tapToReconnectActive := true }

theorem C3_witness :
    (Exhausted (runAuto exhState [AutoEvent.closeEvt, AutoEvent.timerEvt]).1 ∧
      hasTimerSet (runAuto exhState [AutoEvent.closeEvt, AutoEvent.timerEvt]).2 = false ∧
      hasConnectStart (runAuto exhState [AutoEvent.closeEvt, AutoEvent.timerEvt]).2 = false) ∧
    ((handleTapReconnect exhState).1.reconnectAttempt = 0 ∧
      (handleTapReconnect exhState).1.tapToReconnectActive = false ∧
      hasConnectStart (handleTapReconnect exhState).2 = true) := by
  have h := C3_exhausted_no_timer exhState (by decide)
  exact ⟨h.1 [AutoEvent.closeEvt, AutoEvent.timerEvt], h.2⟩

/-- C6: when the page becomes visible while the socket is observably not
open (missing, CLOSED or CLOSING) or after being hidden for more than the
2000 ms threshold, the manager cancels any pending reconnect timer, resets
the attempt count to 0, clears the tap-to-reconnect state and immediately
opens a new transport without scheduling any backoff timer. -/
theorem C6_visibility_recovery (s : TState) (now : Nat)
    (hd : s.disposed = false)
    (hcond : s.wsState = none ∨ s.wsState = some ReadyState.CLOSED ∨
      s.wsState = some ReadyState.CLOSING ∨
      (0 < s.hiddenAt ∧ 2000 < now - s.hiddenAt)) :
    (handleVisibilityChange s Visibility.visible now).1.reconnectAttempt = 0 ∧
    (handleVisibilityChange s Visibility.visible now).1.tapToReconnectActive = false ∧
    (handleVisibilityChange s Visibility.visible now).1.reconnectTimer = none ∧
    hasConnectStart (handleVisibilityChange s Visibility.visible now).2 = true ∧
    hasTimerSet (handleVisibilityChange s Visibility.visible now).2 = false ∧
    (s.reconnectTimer.isSome = true →
      Output.timerCancel ∈ (handleVisibilityChange s Visibility.visible now).2) := by
  have hcond' : s.wsState = none ∨ s.wsState = some ReadyState.CLOSED ∨
      s.wsState = some ReadyState.CLOSING ∨
      decide (0 < s.hiddenAt ∧ 2000 < now - s.hiddenAt) = true := by
    rcases hcond with h | h | h | h
    · exact Or.inl h
    · exact Or.inr (Or.inl h)
    · exact Or.inr (Or.inr (Or.inl h))
    · exact Or.inr (Or.inr (Or.inr (by simpa using h)))
  simp only [handleVisibilityChange, hd, Bool.false_eq_true, if_false, if_pos hcond',
    doConnect]
  refine ⟨by simp, by simp, by simp, ?_, ?_, ?_⟩
  · simp [hasConnectStart, List.any_append]
  · simp [hasTimerSet, List.any_append]
  · intro htimer
    simp [htimer]

/-- Witness for C6: a stale CLOSING socket with a pending timer at
`now` = 5000 after being hidden at 1000. -/
def visState : TState :=
  { baseState with wsState := some ReadyState.CLOSING,
                   reconnectTimer := some 500, reconnectAttempt := 3,
                   hiddenAt := 1000 }

/-- C4: a window-index change while the socket is open (and the surface
proposes dimensions `d`) sends exactly `SELECT_WINDOW:<n>` followed by
exactly one forced `RESIZE` on the same socket, in that order, and neither
closes nor reopens the socket. -/
theorem C4_window_switch (s : TState) (n : Nat) (d : Dims)
    (hopen : s.wsState = some ReadyState.OPEN)
    (hne : s.windowIndexRef ≠ n) :
    windowSwitchEffect s n (some d)
      = ({ s with windowIndexRef := n, lastSentDims := some d },
          [Output.send ⟨SendSite.selectWindowSite, false, Frame.selectWindow n⟩,
           Output.send ⟨SendSite.viaSendResize, true, Frame.resize d⟩]) ∧
    (windowSwitchEffect s n (some d)).1.wsState = s.wsState ∧
    Output.closeSock ∉ (windowSwitchEffect s n (some d)).2 ∧
    Output.connectStart ∉ (windowSwitchEffect s n (some d)).2 := by
  have hmain : windowSwitchEffect s n (some d)
      = ({ s with windowIndexRef := n, lastSentDims := some d },
          [Output.send ⟨SendSite.selectWindowSite, false, Frame.selectWindow n⟩,
           Output.send ⟨SendSite.viaSendResize, true, Frame.resize d⟩]) := by
    simp [windowSwitchEffect, sendResize, hopen, hne]
  refine ⟨hmain, ?_, ?_, ?_⟩ <;> rw [hmain] <;> simp

/-- Witness for C4: switching from window 2 to window 5 at 80×24. -/
theorem C4_witness :
    windowSwitchEffect { baseState with windowIndexRef := 2 } 5 (some ⟨80, 24⟩)
      = ({ baseState with windowIndexRef := 5, lastSentDims := some ⟨80, 24⟩ },
          [Output.send ⟨SendSite.selectWindowSite, false, Frame.selectWindow 5⟩,
           Output.send ⟨SendSite.viaSendResize, true, Frame.resize ⟨80, 24⟩⟩]) ∧
    (windowSwitchEffect { baseState with windowIndexRef := 2 } 5 (some ⟨80, 24⟩)).1.wsState
      = ({ baseState with windowIndexRef := 2 } : TState).wsState ∧
    Output.closeSock ∉ (windowSwitchEffect { baseState with windowIndexRef := 2 } 5 (some ⟨80, 24⟩)).2 ∧
    Output.connectStart ∉ (windowSwitchEffect { baseState with windowIndexRef := 2 } 5 (some ⟨80, 24⟩)).2 :=
  C4_window_switch { baseState with windowIndexRef := 2 } 5 ⟨80, 24⟩ (by decide) (by decide)

theorem C6_witness :
    (handleVisibilityChange visState Visibility.visible 5000).1.reconnectAttempt = 0 ∧
    (handleVisibilityChange visState Visibility.visible 5000).1.tapToReconnectActive = false ∧
    (handleVisibilityChange visState Visibility.visible 5000).1.reconnectTimer = none ∧
    hasConnectStart (handleVisibilityChange visState Visibility.visible 5000).2 = true ∧
    hasTimerSet (handleVisibilityChange visState Visibility.visible 5000).2 = false ∧
    (visState.reconnectTimer.isSome = true →
      Output.timerCancel ∈ (handleVisibilityChange visState Visibility.visible 5000).2) :=
  C6_visibility_recovery visState 5000 (by decide)
    (Or.inr (Or.inr (Or.inl (by decide))))

/-! ## Gesture Translator: keystrokes and the scroll-mode flag -/

/-- A keyboard event as seen by `attachCustomKeyEventHandler`.  `emits` is
the input data xterm.js would produce for this key if the handler lets it
through (`none` for keys, such as key-ups or bare modifiers, that produce
no data). -/
structure KeyEvt where
  key : String
  evType : String
  shiftKey : Bool
  ctrlKey : Bool
  metaKey : Bool
  emits : Option String
deriving DecidableEq, Repr

/-- The platform-dependent copy/paste chord test (`shouldCopy` /
`shouldPaste`, lines 264 and 272 — both use the same formula). -/
def shouldCopyPaste (isMac : Bool) (e : KeyEvt) : Bool :=
  if isMac then e.metaKey && !e.shiftKey else e.ctrlKey && e.shiftKey

/-- `term.attachCustomKeyEventHandler` (lines 250–311).  Returns the
updated state, the sends performed, and the handler's return value
(`true` lets xterm.js process the key and produce data). -/
def customKeyHandler (isMac hasSel : Bool) (termRows : Nat) (s : TState)
    (e : KeyEvt) : TState × List Output × Bool :=
  if e.key = "Enter" ∧ e.shiftKey = true then
    if e.evType = "keydown" ∧ s.wsState = some ReadyState.OPEN then
      (s, [Output.send ⟨SendSite.keyHandler, false, Frame.shiftEnter⟩], false)
    else (s, [], false)
  else if e.evType ≠ "keydown" then (s, [], true)
  else if (e.key = "c" ∨ e.key = "C") ∧ shouldCopyPaste isMac e = true ∧ hasSel = true then
    (s, [], false)   -- clipboard write only — no socket traffic
  else if (e.key = "v" ∨ e.key = "V") ∧ shouldCopyPaste isMac e = true then
    (s, [], false)   -- async clipboard read started; see clipboardPasteArrive
  else if e.key = "PageUp" ∨ e.key = "PageDown" then
    if s.wsState = some ReadyState.OPEN then
      if e.key = "PageUp" then
        ({ s with inScrollMode := true },
          [Output.send ⟨SendSite.keyHandler, false, Frame.scrollUp termRows⟩], false)
      else
        (s, [Output.send ⟨SendSite.keyHandler, false, Frame.scrollDown termRows⟩], false)
    else (s, [], false)
  else if s.inScrollMode = true ∧ (e.key = "ArrowUp" ∨ e.key = "ArrowDown") then
    if s.wsState = some ReadyState.OPEN then
      if e.key = "ArrowUp" then
        (s, [Output.send ⟨SendSite.keyHandler, false, Frame.scrollUp 1⟩], false)
      else
        (s, [Output.send ⟨SendSite.keyHandler, false, Frame.scrollDown 1⟩], false)
    else (s, [], false)
  else (s, [], true)

/-- What happens when xterm.js emits input data: the raw forwarding
`term.onData` handler (lines 212–217) runs first, then the scroll-exit
`term.onData` handler (lines 238–246), in registration order. -/
def onDataDispatch (s : TState) (data : String) : TState × List Output :=
  let out1 : List Output :=
    if s.wsState = some ReadyState.OPEN then
      [Output.send ⟨SendSite.dataPath, false, Frame.raw data⟩]
    else []
  if s.inScrollMode = true then
    ({ s with inScrollMode := false },
      out1 ++ (if s.wsState = some ReadyState.OPEN then
        [Output.send ⟨SendSite.scrollExitSite, false, Frame.scrollExit⟩] else []))
  else (s, out1)

/-- One keyboard event end to end: the custom handler, then — only if it
returned `true` and the key produces data — the `onData` handlers. -/
def processKey (isMac hasSel : Bool) (termRows : Nat) (s : TState) (e : KeyEvt) :
    TState × List Output :=
  match customKeyHandler isMac hasSel termRows s e with
  | (s1, out1, pass) =>
    if pass = true then
      match e.emits with
      | some d =>
        let (s2, out2) := onDataDispatch s1 d
        (s2, out1 ++ out2)
      | none => (s1, out1)
    else (s1, out1)

/-- When the custom key handler lets a key through, it has changed nothing
and sent nothing. -/
theorem customKeyHandler_pass (isMac hasSel : Bool) (termRows : Nat)
    (s : TState) (e : KeyEvt)
    (h : (customKeyHandler isMac hasSel termRows s e).2.2 = true) :
    customKeyHandler isMac hasSel termRows s e = (s, [], true) := by
  unfold customKeyHandler at h ⊢
  split_ifs at h ⊢ <;> simp_all

/-- C5 (counterexample): the claim that every keystroke other than the
Up/Down arrows clears the scroll-mode flag and sends `SCROLL:exit` is
false: a PageDown keydown while the flag is set sends `SCROLL:down:<rows>`,
leaves the flag set, and sends no `SCROLL:exit`. -/
theorem C5_counterexample :
    (processKey false false 24 { baseState with inScrollMode := true }
        ⟨"PageDown", "keydown", false, false, false, some "\x1b[6~"⟩).1.inScrollMode
      = true ∧
    (processKey false false 24 { baseState with inScrollMode := true }
        ⟨"PageDown", "keydown", false, false, false, some "\x1b[6~"⟩).2
      = [Output.send ⟨SendSite.keyHandler, false, Frame.scrollDown 24⟩] := by
  decide

/-- C5 (amended): while the scroll-mode flag is set and the socket is
open, an Up/Down arrow keydown is sent as `SCROLL:up:1` / `SCROLL:down:1`,
bypasses the raw-byte output path entirely, and leaves the flag set; and
every keystroke that the custom key handler passes through to the
terminal's data path (i.e. any key it does not intercept — the intercepted
ones being Shift+Enter, the copy/paste chords, PageUp/PageDown and the
scroll-mode arrows) clears the flag and sends `SCROLL:exit`. -/
theorem C5_scrollmode_keys :
    (∀ (s : TState) (isMac hasSel sh ct mt : Bool) (rows : Nat) (em : Option String),
      s.inScrollMode = true → s.wsState = some ReadyState.OPEN →
      processKey isMac hasSel rows s ⟨"ArrowUp", "keydown", sh, ct, mt, em⟩
        = (s, [Output.send ⟨SendSite.keyHandler, false, Frame.scrollUp 1⟩]) ∧
      processKey isMac hasSel rows s ⟨"ArrowDown", "keydown", sh, ct, mt, em⟩
        = (s, [Output.send ⟨SendSite.keyHandler, false, Frame.scrollDown 1⟩])) ∧
    (∀ (s : TState) (isMac hasSel : Bool) (rows : Nat) (e : KeyEvt) (dta : String),
      (customKeyHandler isMac hasSel rows s e).2.2 = true →
      e.emits = some dta → s.inScrollMode = true →
      (processKey isMac hasSel rows s e).1.inScrollMode = false ∧
      (s.wsState = some ReadyState.OPEN →
        Output.send ⟨SendSite.scrollExitSite, false, Frame.scrollExit⟩
          ∈ (processKey isMac hasSel rows s e).2)) := by
  constructor
  · intro s isMac hasSel sh ct mt rows em hscroll hopen
    constructor <;> simp [processKey, customKeyHandler, hscroll, hopen]
  · intro s isMac hasSel rows e dta hpass hem hscroll
    have hch := customKeyHandler_pass isMac hasSel rows s e hpass
    constructor
    · simp [processKey, hch, hem, onDataDispatch, hscroll]
    · intro hopen
      simp [processKey, hch, hem, onDataDispatch, hscroll, hopen]

/-- Witness for C5: an ArrowUp in scroll mode, and the letter `g` (which
the handler passes through, producing data `g`) exiting scroll mode. -/
theorem C5_witness :
    (processKey false false 24 { baseState with inScrollMode := true }
        ⟨"ArrowUp", "keydown", false, false, false, some "\x1b[A"⟩
      = ({ baseState with inScrollMode := true },
          [Output.send ⟨SendSite.keyHandler, false, Frame.scrollUp 1⟩])) ∧
    ((processKey false false 24 { baseState with inScrollMode := true }
        ⟨"g", "keydown", false, false, false, some "g"⟩).1.inScrollMode = false ∧
      Output.send ⟨SendSite.scrollExitSite, false, Frame.scrollExit⟩
        ∈ (processKey false false 24 { baseState with inScrollMode := true }
            ⟨"g", "keydown", false, false, false, some "g"⟩).2) := by
  have h1 := (C5_scrollmode_keys.1 { baseState with inScrollMode := true }
    false false false false false 24 (some "\x1b[A") (by decide) (by decide)).1
  have h2 := C5_scrollmode_keys.2 { baseState with inScrollMode := true }
    false false 24 ⟨"g", "keydown", false, false, false, some "g"⟩ "g"
    (by decide) (by decide) (by decide)
  exact ⟨h1, h2.1, h2.2 (by decide)⟩

/-! ## Inbound control frames (`ws.onmessage`, lines 145–170)

Inbound text frames are modelled as lists of characters, so that prefix
dispatch (`text.startsWith(...)` / `text.slice(...)`) becomes list
operations.  `JSON.parse` is a platform collaborator and is passed in as a
function `parse` returning `none` exactly when it throws. -/

/-- The decoded `{bellAction?, visualBell?}` payload of a bell warning. -/
structure BellWarning where
  bellAction : Option String
  visualBell : Option String
deriving DecidableEq, Repr

/-- The React warning state (`mouseWarning`, `bellWarning`). -/
structure WarnState where
  mouseWarning : Bool
  bellWarning : Option BellWarning
deriving DecidableEq, Repr

def mwTag : List Char := "MOUSE_WARNING:".data
def bwTag : List Char := "BELL_WARNING:".data
def winTag : List Char := "WINDOW_STATE:".data

/-- The text branch of `ws.onmessage`: prefix dispatch on control tags;
the bell payload `ok` clears the warning, any other payload is parsed and
a parse failure is swallowed; `WINDOW_STATE:` is consumed silently; any
other text is written to the terminal verbatim. -/
def handleTextMessage (parse : List Char → Option BellWarning) (w : WarnState)
    (text : List Char) : WarnState × List Output :=
  if mwTag.isPrefixOf text = true then
    ({ w with mouseWarning := text == "MOUSE_WARNING:on".data }, [])
  else if bwTag.isPrefixOf text = true then
    let payload := text.drop bwTag.length
    if payload = "ok".data then ({ w with bellWarning := none }, [])
    else
      match parse payload with
      | some bw => ({ w with bellWarning := some bw }, [])
      | none => (w, [])
  else if winTag.isPrefixOf text = true then (w, [])
  else (w, [Output.write (String.mk text)])

/-- C7: a `BELL_WARNING:ok` frame clears any existing bell warning; a
payload that parses replaces the warning state with the parsed value; a
payload that fails to parse is silently ignored — the prior warning state
is unchanged and nothing is written to the terminal. -/
theorem C7_bell_warning (parse : List Char → Option BellWarning) (w : WarnState) :
    handleTextMessage parse w (bwTag ++ "ok".data)
        = ({ w with bellWarning := none }, []) ∧
    (∀ (p : List Char) (bw : BellWarning), p ≠ "ok".data → parse p = some bw →
      handleTextMessage parse w (bwTag ++ p) = ({ w with bellWarning := some bw }, [])) ∧
    (∀ p : List Char, p ≠ "ok".data → parse p = none →
      handleTextMessage parse w (bwTag ++ p) = (w, [])) := by
  have hmw : ∀ p : List Char, mwTag.isPrefixOf (bwTag ++ p) = false := by
    intro p; simp [mwTag, bwTag, List.isPrefixOf]
  have hbw : ∀ p : List Char, bwTag.isPrefixOf (bwTag ++ p) = true := by
    intro p; rw [List.isPrefixOf_iff_prefix]; exact List.prefix_append _ _
  have hdrop : ∀ p : List Char, (bwTag ++ p).drop bwTag.length = p := fun p =>
    List.drop_left bwTag p
  refine ⟨?_, ?_, ?_⟩
  · simp [handleTextMessage, hmw, hbw, hdrop]
  · intro p bw hok hparse
    simp [handleTextMessage, hmw, hbw, hdrop, hok, hparse]
  · intro p hok hparse
    simp [handleTextMessage, hmw, hbw, hdrop, hok, hparse]

/-- Witness for C7: a concrete parser that accepts the payload `A` and
rejects `zz`, against a state carrying an existing warning. -/
theorem C7_witness :
    handleTextMessage
        (fun l => if l = "A".data then some ⟨some "none", none⟩ else none)
        ⟨true, some ⟨none, some "on"⟩⟩ (bwTag ++ "ok".data)
      = (⟨true, none⟩, []) ∧
    handleTextMessage
        (fun l => if l = "A".data then some ⟨some "none", none⟩ else none)
        ⟨true, some ⟨none, some "on"⟩⟩ (bwTag ++ "A".data)
      = (⟨true, some ⟨some "none", none⟩⟩, []) ∧
    handleTextMessage
        (fun l => if l = "A".data then some ⟨some "none", none⟩ else none)
        ⟨true, some ⟨none, some "on"⟩⟩ (bwTag ++ "zz".data)
      = (⟨true, some ⟨none, some "on"⟩⟩, []) := by
  have h := C7_bell_warning
    (fun l => if l = "A".data then some ⟨some "none", none⟩ else none)
    ⟨true, some ⟨none, some "on"⟩⟩
  exact ⟨h.1, h.2.1 "A".data ⟨some "none", none⟩ (by decide) (by decide),
    h.2.2 "zz".data (by decide) (by decide)⟩

/-! ## Upload Bridge (`uploadAndInject`, lines 425–450) -/

/-- The completed fate of one upload request: a 2xx response whose JSON
carries `path`, a non-2xx response with its text body, or a thrown network
error. -/
inductive FetchResult
  | okPath (path : String)
  | httpError (msg : String)
  | netError (msg : String)
deriving DecidableEq, Repr

/-- `uploadAndInject`, resumed at the point the request completes.
`wsAtCompletion` is the `ws` argument's readyState at that moment (`none`
if the ref was null).  On success the returned path is sent verbatim iff
the socket is open; on failure an inline message is written and nothing
touches the socket. -/
def uploadAndInject (res : FetchResult) (wsAtCompletion : Option ReadyState) :
    List Output :=
  match res with
  | .httpError msg =>
    [Output.write ("\r\n\x1b[1;31m[Image upload failed: " ++ msg ++ "]\x1b[0m")]
  | .okPath p =>
    if wsAtCompletion = some ReadyState.OPEN then
      [Output.send ⟨SendSite.uploadSite, false, Frame.raw p⟩]
    else []
  | .netError msg =>
    [Output.write ("\r\n\x1b[1;31m[Image upload error: " ++ msg ++ "]\x1b[0m")]

/-- C8: a successful upload response with path `p` results in exactly the
literal bytes of `p` being sent iff the socket is open at completion time
(nothing is sent or queued otherwise), and a failed upload produces
exactly one inline terminal message with no sends and no socket
operations. -/
theorem C8_upload_inject :
    (∀ p : String,
      uploadAndInject (FetchResult.okPath p) (some ReadyState.OPEN)
          = [Output.send ⟨SendSite.uploadSite, false, Frame.raw p⟩] ∧
      (Frame.raw p).wire = p) ∧
    (∀ p : String,
      uploadAndInject (FetchResult.okPath p) none = [] ∧
      uploadAndInject (FetchResult.okPath p) (some ReadyState.CONNECTING) = [] ∧
      uploadAndInject (FetchResult.okPath p) (some ReadyState.CLOSING) = [] ∧
      uploadAndInject (FetchResult.okPath p) (some ReadyState.CLOSED) = []) ∧
    (∀ (msg : String) (ws : Option ReadyState),
      uploadAndInject (FetchResult.httpError msg) ws
          = [Output.write ("\r\n\x1b[1;31m[Image upload failed: " ++ msg ++ "]\x1b[0m")] ∧
      uploadAndInject (FetchResult.netError msg) ws
          = [Output.write ("\r\n\x1b[1;31m[Image upload error: " ++ msg ++ "]\x1b[0m")]) := by
  refine ⟨fun p => ⟨rfl, rfl⟩, fun p => ⟨rfl, rfl, rfl, rfl⟩, fun msg ws => ⟨rfl, rfl⟩⟩

/-! ## Wheel and touch scrolling, momentum loop -/

/-- `handleWheel` (lines 637–656): throttled to one command per 50 ms;
`lines = Math.max(1, Math.round(Math.abs(deltaY) / 40) * 3)`; only upward
deltas enter scroll mode.  (JS `Math.round x = ⌊x + 1/2⌋` coincides with
Lean's `round` on ℚ.) -/
def handleWheel (s : TState) (now : Nat) (deltaY : ℚ) : TState × List Output :=
  if now - s.lastWheelTime < 50 then (s, [])
  else
    let s1 := { s with lastWheelTime := now }
    if s1.wsState = some ReadyState.OPEN then
      let lines := max 1 ((round (|deltaY| / 40)).toNat * 3)
      if deltaY < 0 then
        ({ s1 with inScrollMode := true },
          [Output.send ⟨SendSite.wheelSite, false, Frame.scrollUp lines⟩])
      else
        (s1, [Output.send ⟨SendSite.wheelSite, false, Frame.scrollDown lines⟩])
    else (s1, [])

/-- The touch-gesture closure variables (`touchStartY`, `touchLastY`,
`lastTouchTime`, `touchVelocity`). -/
structure TouchSt where
  startY : ℚ
  lastY : ℚ
  lastTime : Nat
  velocity : ℚ
deriving DecidableEq, Repr

/-- `handleTouchMove` (lines 697–746).  The selection path performs no
socket sends; otherwise: a 10 px dead zone, a 50 ms throttle, a velocity
update (with `elapsed = now - lastTouchTime || 1`), and a scroll command
of `max(1, round(|deltaY| / 20))` lines when the socket is open. -/
def handleTouchMove (selectMode : Bool) (s : TState) (t : TouchSt)
    (currentY : ℚ) (now : Nat) : TState × TouchSt × List Output :=
  if selectMode = true then (s, t, [])
  else if |currentY - t.startY| < 10 then (s, t, [])
  else if now - t.lastTime < 50 then (s, t, [])
  else
    let deltaY := t.lastY - currentY
    let elapsed : ℚ := if now - t.lastTime = 0 then 1 else ((now - t.lastTime : Nat) : ℚ)
    let t1 := { t with velocity := deltaY / elapsed, lastTime := now, lastY := currentY }
    if s.wsState = some ReadyState.OPEN then
      let lines := max 1 (round (|deltaY| / 20)).toNat
      if 0 < deltaY then
        ({ s with inScrollMode := true }, t1,
          [Output.send ⟨SendSite.touchSite, false, Frame.scrollUp lines⟩])
      else if deltaY < 0 then
        (s, t1, [Output.send ⟨SendSite.touchSite, false, Frame.scrollDown lines⟩])
      else (s, t1, [])
    else (s, t1, [])

/-- `handleTouchEnd` (lines 748–774), up to starting the momentum loop:
returns the initial velocity of the started loop, or `none` when no loop
starts (selection mode, socket not open, or velocity below 0.3).  This is
the *only* open-state check the momentum path ever makes. -/
def handleTouchEnd (selectMode : Bool) (s : TState) (t : TouchSt) : Option ℚ :=
  if selectMode = true then none
  else if s.wsState ≠ some ReadyState.OPEN then none
  else if |t.velocity| < 3 / 10 then none
  else some t.velocity

/-- One tick of the momentum `decay` loop (lines 760–772): multiply the
velocity by 0.85, stop below 0.1, otherwise send
`SCROLL:<dir>:max(1, round(|velocity·50| / 20))` (the upward branch also
re-asserts the scroll-mode flag). -/
def decayStep (v : ℚ) : Option (ℚ × Frame) :=
  let v2 := v * (17 / 20)
  if |v2| < 1 / 10 then none
  else
    let lines := max 1 (round (|v2 * 50| / 20)).toNat
    if 0 < v2 then some (v2, Frame.scrollUp lines)
    else some (v2, Frame.scrollDown lines)

/-- The momentum loop as actually coded: each animation-frame tick sends
unconditionally on the captured socket.  `states` lists the socket's
readyState at each successive tick; the run records, for every send it
performs, the readyState in force at that moment. -/
def momentumRun (v : ℚ) : List ReadyState → List (ReadyState × Frame)
  | [] => []
  | rs :: rest =>
    match decayStep v with
    | none => []
    | some (v2, fr) => (rs, fr) :: momentumRun v2 rest

/-- The momentum loop with explicit fuel: the emitted frames, and whether
the stop condition was reached within the fuel. -/
def momentumFrames : Nat → ℚ → List Frame × Bool
  | 0, _ => ([], false)
  | fuel + 1, v =>
    match decayStep v with
    | none => ([], true)
    | some (v2, fr) =>
      (fr :: (momentumFrames fuel v2).1, (momentumFrames fuel v2).2)

theorem momentumRun_nil (v : ℚ) : momentumRun v [] = [] := rfl

theorem momentumRun_cons (v : ℚ) (rs : ReadyState) (rest : List ReadyState) :
    momentumRun v (rs :: rest)
      = match decayStep v with
        | none => []
        | some (v2, fr) => (rs, fr) :: momentumRun v2 rest := rfl

/-! ## Remaining guarded send helpers -/

/-- `sendToWs` (lines 867–872), used by the virtual-key toolbar and the
text-composition bridge. -/
def sendToWs (s : TState) (fr : Frame) : List Output :=
  if s.wsState = some ReadyState.OPEN then
    [Output.send ⟨SendSite.toWsSite, false, fr⟩]
  else []

/-- The async clipboard-paste completion (lines 274–279): re-reads the
socket ref and checks it at completion time. -/
def clipboardPasteArrive (s : TState) (text : String) : List Output :=
  if text ≠ "" ∧ s.wsState = some ReadyState.OPEN then
    [Output.send ⟨SendSite.pasteSite, false, Frame.raw text⟩]
  else []

/-- `handleDisableMouse` (lines 853–858). -/
def handleDisableMouse (s : TState) : List Output :=
  if s.wsState = some ReadyState.OPEN then
    [Output.send ⟨SendSite.bannerSite, false, Frame.disableMouse⟩]
  else []

/-- `handleFixBell` (lines 860–865). -/
def handleFixBell (s : TState) : List Output :=
  if s.wsState = some ReadyState.OPEN then
    [Output.send ⟨SendSite.bannerSite, false, Frame.fixBell⟩]
  else []

/-- The `term.onBinary` forwarding handler (lines 219–228); code units are
masked with `& 0xff`. -/
def onBinaryDispatch (s : TState) (data : List Nat) : List Output :=
  if s.wsState = some ReadyState.OPEN then
    [Output.send ⟨SendSite.binaryPath, false, Frame.rawBytes (data.map (· % 256))⟩]
  else []

/-- C9 (counterexample): the momentum loop violates the claim.  A touch
release at velocity 1 while the socket is open starts the loop; if the
socket then closes, the next tick still executes its send — with the
socket's readyState CLOSED. -/
theorem C9_counterexample :
    handleTouchEnd false baseState ⟨0, 0, 0, 1⟩ = some 1 ∧
    momentumRun 1 [ReadyState.CLOSED]
      = [(ReadyState.CLOSED, Frame.scrollUp 2)] := by
  constructor
  · norm_num [handleTouchEnd, baseState]
  · have habs : |(1 : ℚ) * (17 / 20)| = 17 / 20 := by
      rw [abs_of_pos] <;> norm_num
    have habs2 : |(1 : ℚ) * (17 / 20) * 50| = 85 / 2 := by
      rw [abs_of_pos] <;> norm_num
    have hr : round ((85 / 2 : ℚ) / 20) = 2 := by
      rw [round_eq, Int.floor_eq_iff]
      norm_num
    have hds : ∃ v2, decayStep 1 = some (v2, Frame.scrollUp 2) := by
      refine ⟨1 * (17 / 20), ?_⟩
      simp only [decayStep]
      rw [habs, habs2, hr]
      rw [if_neg (by norm_num : ¬ (17 / 20 : ℚ) < 1 / 10)]
      rw [if_pos (by norm_num : (0 : ℚ) < 1 * (17 / 20))]
      rw [show (1 ⊔ Int.toNat 2) = 2 by decide]
    obtain ⟨v2, hds⟩ := hds
    rw [momentumRun_cons, hds]
    show (ReadyState.CLOSED, Frame.scrollUp 2) :: momentumRun v2 [] = _
    rw [momentumRun_nil]

/-- C9 (amended): every send path except the momentum loop checks the
socket's open state at the moment it executes, so none of them performs a
send while the readyState is not OPEN; the momentum loop checks only once,
at loop entry (`handleTouchEnd` starts no loop on a non-open socket), and
its per-tick sends go out without re-checking (see the counterexample). -/
theorem C9_send_guards (s : TState) (h : s.wsState ≠ some ReadyState.OPEN) :
    (∀ f p, (sendResize s f p).2 = []) ∧
    (∀ c r, (resizeListener s c r).2 = []) ∧
    (∀ d, (onDataDispatch s d).2 = []) ∧
    (∀ (im hs : Bool) (rows : Nat) (e : KeyEvt),
      (customKeyHandler im hs rows s e).2.1 = []) ∧
    (∀ (now : Nat) (dy : ℚ), (handleWheel s now dy).2 = []) ∧
    (∀ (sm : Bool) (t : TouchSt) (y : ℚ) (now : Nat),
      (handleTouchMove sm s t y now).2.2 = []) ∧
    (∀ (sm : Bool) (t : TouchSt), handleTouchEnd sm s t = none) ∧
    (∀ i p, (windowSwitchEffect s i p).2 = []) ∧
    (∀ p, uploadAndInject (FetchResult.okPath p) s.wsState = []) ∧
    (∀ fr, sendToWs s fr = []) ∧
    (∀ txt, clipboardPasteArrive s txt = []) ∧
    handleDisableMouse s = [] ∧ handleFixBell s = [] ∧
    (∀ bytes, onBinaryDispatch s bytes = []) := by
  refine ⟨?_, ?_, ?_, ?_, ?_, ?_, ?_, ?_, ?_, ?_, ?_, ?_, ?_, ?_⟩
  · intro f p; simp [sendResize, h]
  · intro c r; simp [resizeListener, h]
  · intro d
    simp [onDataDispatch, h]
    split <;> rfl
  · intro im hs rows e
    unfold customKeyHandler
    split_ifs <;> simp_all
  · intro now dy
    unfold handleWheel
    split_ifs <;> simp_all
  · intro sm t y now
    unfold handleTouchMove
    split_ifs <;> simp_all
  · intro sm t
    unfold handleTouchEnd
    split_ifs <;> simp_all
  · intro i p
    simp [windowSwitchEffect, sendResize, h]
  · intro p; simp [uploadAndInject, h]
  · intro fr; simp [sendToWs, h]
  · intro txt; simp [clipboardPasteArrive, h]
  · simp [handleDisableMouse, h]
  · simp [handleFixBell, h]
  · intro bytes; simp [onBinaryDispatch, h]

/-- Witness for C9 at a concrete CLOSED socket. -/
theorem C9_witness :
    (sendResize { baseState with wsState := some ReadyState.CLOSED } true
        (some ⟨80, 24⟩)).2 = [] ∧
    (handleWheel { baseState with wsState := some ReadyState.CLOSED } 100
        (-120)).2 = [] ∧
    handleTouchEnd false { baseState with wsState := some ReadyState.CLOSED }
        ⟨0, 0, 0, 1⟩ = none := by
  have h := C9_send_guards { baseState with wsState := some ReadyState.CLOSED }
    (by decide)
  exact ⟨h.1 true (some ⟨80, 24⟩), h.2.2.2.2.1 100 (-120),
    h.2.2.2.2.2.2.1 false ⟨0, 0, 0, 1⟩⟩

/-! ## Momentum termination (C10) -/

theorem decayStep_none (v : ℚ) (h : |v * (17 / 20 : ℚ)| < 1 / 10) :
    decayStep v = none := by
  simp only [decayStep]
  rw [if_pos h]

theorem decayStep_some (v : ℚ) (h : ¬ |v * (17 / 20 : ℚ)| < 1 / 10) :
    ∃ fr, decayStep v = some (v * (17 / 20), fr) := by
  simp only [decayStep]
  rw [if_neg h]
  split <;> exact ⟨_, rfl⟩

theorem momentumFrames_zero (v : ℚ) : momentumFrames 0 v = ([], false) := rfl

theorem momentumFrames_succ (fuel : Nat) (v : ℚ) :
    momentumFrames (fuel + 1) v
      = match decayStep v with
        | none => ([], true)
        | some (v2, fr) =>
          (fr :: (momentumFrames fuel v2).1, (momentumFrames fuel v2).2) := rfl

theorem momentumFrames_stops : ∀ (n : Nat) (v : ℚ),
    |v * (17 / 20 : ℚ) ^ (n + 1)| < 1 / 10 →
    (momentumFrames (n + 1) v).2 = true := by
  intro n
  induction n with
  | zero =>
    intro v h
    rw [pow_one] at h
    rw [momentumFrames_succ, decayStep_none v h]
  | succ k ih =>
    intro v h
    by_cases hstop : |v * (17 / 20 : ℚ)| < 1 / 10
    · rw [momentumFrames_succ, decayStep_none v hstop]
    · obtain ⟨fr, hds⟩ := decayStep_some v hstop
      have hnext : |v * (17 / 20 : ℚ) * (17 / 20 : ℚ) ^ (k + 1)| < 1 / 10 := by
        have heq : v * (17 / 20 : ℚ) * (17 / 20 : ℚ) ^ (k + 1)
            = v * (17 / 20 : ℚ) ^ (k + 1 + 1) := by ring
        rw [heq]; exact h
      have e1 : momentumFrames (k + 1 + 1) v
          = (fr :: (momentumFrames (k + 1) (v * (17 / 20))).1,
             (momentumFrames (k + 1) (v * (17 / 20))).2) := by
        rw [momentumFrames_succ, hds]
      rw [e1]
      exact ih (v * (17 / 20)) hnext

theorem momentumFrames_mono : ∀ (f : Nat) (v : ℚ),
    (momentumFrames f v).2 = true →
    momentumFrames (f + 1) v = momentumFrames f v := by
  intro f
  induction f with
  | zero => intro v h; rw [momentumFrames_zero] at h; simp at h
  | succ k ih =>
    intro v h
    cases hds : decayStep v with
    | none =>
      rw [momentumFrames_succ (k + 1) v, hds, momentumFrames_succ k v, hds]
    | some pr =>
      obtain ⟨v2, fr⟩ := pr
      have e2 : momentumFrames (k + 1) v
          = (fr :: (momentumFrames k v2).1, (momentumFrames k v2).2) := by
        rw [momentumFrames_succ, hds]
      have h2 : (momentumFrames k v2).2 = true := by
        rw [e2] at h; exact h
      have e1 : momentumFrames (k + 1 + 1) v
          = (fr :: (momentumFrames (k + 1) v2).1, (momentumFrames (k + 1) v2).2) := by
        rw [momentumFrames_succ, hds]
      rw [e1, e2, ih v2 h2]

theorem exists_decay_small (v : ℚ) :
    ∃ n : Nat, |v * (17 / 20 : ℚ) ^ (n + 1)| < 1 / 10 := by
  rcases eq_or_ne v 0 with rfl | hv
  · exact ⟨0, by norm_num⟩
  · have hav : 0 < |v| := abs_pos.mpr hv
    obtain ⟨n, hn⟩ := exists_pow_lt_of_lt_one
      (show (0 : ℚ) < 1 / (10 * |v|) by positivity)
      (show (17 / 20 : ℚ) < 1 by norm_num)
    refine ⟨n, ?_⟩
    have hple : (17 / 20 : ℚ) ^ (n + 1) ≤ (17 / 20 : ℚ) ^ n :=
      pow_le_pow_of_le_one (by norm_num) (by norm_num) (Nat.le_succ n)
    have habs : |v * (17 / 20 : ℚ) ^ (n + 1)| = |v| * (17 / 20 : ℚ) ^ (n + 1) := by
      rw [abs_mul, abs_pow]
      norm_num
    rw [habs]
    have h1 : |v| * (17 / 20 : ℚ) ^ (n + 1) ≤ |v| * (17 / 20 : ℚ) ^ n :=
      mul_le_mul_of_nonneg_left hple (le_of_lt hav)
    have h2 : |v| * (17 / 20 : ℚ) ^ n < |v| * (1 / (10 * |v|)) :=
      mul_lt_mul_of_pos_left hn hav
    have h3 : |v| * (1 / (10 * |v|)) = 1 / 10 := by
      field_simp
      ring
    linarith

/-- C10: for every initial touch-release velocity the momentum loop
terminates — there is a fuel bound within which the decaying velocity
falls below the 0.1 floor, and past that bound the run (and hence the
finite list of emitted SCROLL frames) never changes. -/
theorem C10_momentum_terminates (v : ℚ) :
    ∃ n : Nat, (momentumFrames n v).2 = true ∧
      ∀ m : Nat, momentumFrames (n + m) v = momentumFrames n v := by
  obtain ⟨k, hk⟩ := exists_decay_small v
  refine ⟨k + 1, momentumFrames_stops k v hk, ?_⟩
  intro m
  induction m with
  | zero => rfl
  | succ j ih =>
    have hj : (momentumFrames (k + 1 + j) v).2 = true := by
      rw [ih]; exact momentumFrames_stops k v hk
    calc momentumFrames (k + 1 + (j + 1)) v
        = momentumFrames ((k + 1 + j) + 1) v := rfl
      _ = momentumFrames (k + 1 + j) v := momentumFrames_mono _ v hj
      _ = momentumFrames (k + 1) v := ih

end TmuxDeck
